import Mathlib

/-!
Shallow embedding of `src/packages/dojoswap/src/token.rs` from the
cw20-reflection repository, together with theorems settling the claims
about `InstantiateMsg::validate` and `InstantiateMsg::get_cap`.

Rust `String` fields that the code inspects byte-wise (`name`, `symbol`,
and the opaque address / marketing strings) are embedded as `List Nat`
of their UTF-8 bytes, so `as_bytes` is the identity.  `Uint128` is
embedded as `Nat` (the code performs no arithmetic on it).  `StdError`
is embedded by its only constructor used here, `generic_err`.
-/

namespace Cw20Reflection

/-- `cosmwasm_std::Uint128`; the code under verification only stores and
compares these values, so the 128-bit bound is irrelevant here. -/
abbrev Uint128 := Nat

/-- `cw20::Cw20Coin`: one initial balance allocation. -/
structure Cw20Coin where
  address : List Nat
  amount : Uint128
  deriving DecidableEq

/-- `cw20::MinterResponse`: the optional minting authority descriptor. -/
structure MinterResponse where
  minter : List Nat
  cap : Option Uint128
  deriving DecidableEq

/-- `cw20::EmbeddedLogo`. -/
inductive EmbeddedLogo where
  | svg (data : List Nat)
  | png (data : List Nat)
  deriving DecidableEq

/-- `cw20::Logo`. -/
inductive Logo where
  | url (u : List Nat)
  | embedded (e : EmbeddedLogo)
  deriving DecidableEq

/-- `InstantiateMarketingInfo` from token.rs. -/
structure InstantiateMarketingInfo where
  project : Option (List Nat)
  description : Option (List Nat)
  marketing : Option (List Nat)
  logo : Option Logo
  deriving DecidableEq

/-- `InstantiateMsg` from token.rs. -/
structure InstantiateMsg where
  name : List Nat
  symbol : List Nat
  decimals : Nat
  initial_balances : List Cw20Coin
  mint : Option MinterResponse
  marketing : Option InstantiateMarketingInfo
  deriving DecidableEq

/-- `cosmwasm_std::StdError`, restricted to the one variant the code
constructs, `StdError::generic_err`. -/
inductive StdError where
  | genericErr (msg : String)
  deriving DecidableEq

/-- `cosmwasm_std::StdResult`. -/
abbrev StdResult (α : Type) := Except StdError α

instance : DecidableEq (StdResult Unit) := fun a b =>
  match a, b with
  | .ok (), .ok () => isTrue rfl
  | .error e₁, .error e₂ =>
    if h : e₁ = e₂ then isTrue (by rw [h]) else isFalse (by simp [h])
  | .ok (), .error _ => isFalse (by simp)
  | .error _, .ok () => isFalse (by simp)

/-- `is_valid_name` from token.rs (lines 50-56): the byte length of the
name must not be below 3 or above 50. -/
def is_valid_name (name : List Nat) : Bool :=
  if name.length < 3 || name.length > 50 then false else true

/-- The per-byte rejection test inside the loop of `is_valid_symbol`
(token.rs line 64): a byte fails when it is not the hyphen (45) and not
an ASCII uppercase letter (65-90) and not an ASCII lowercase letter
(97-122). -/
def symbolByteDisallowed (byte : Nat) : Bool :=
  (byte != 45) && (byte < 65 || byte > 90) && (byte < 97 || byte > 122)

/-- `is_valid_symbol` from token.rs (lines 58-69): length in [3,12] and
no byte makes the loop return false. -/
def is_valid_symbol (symbol : List Nat) : Bool :=
  if symbol.length < 3 || symbol.length > 12 then false
  else !(symbol.any symbolByteDisallowed)

/-- The message of the name rejection (token.rs line 35). -/
def nameErrMsg : String := "Name is not in the expected format (3-50 UTF-8 bytes)"

/-- The message of the symbol rejection (token.rs line 40). -/
def symbolErrMsg : String := "Ticker symbol is not in expected format [a-zA-Z\\-]\x7b3,12\x7d"

/-- The message of the decimals rejection (token.rs line 44). -/
def decimalsErrMsg : String := "Decimals must not exceed 18"

/-- `InstantiateMsg::get_cap` (token.rs lines 27-29):
`self.mint.as_ref().and_then(|v| v.cap)`. -/
def InstantiateMsg.get_cap (m : InstantiateMsg) : Option Uint128 :=
  m.mint.bind fun v => v.cap

/-- `InstantiateMsg::validate` (token.rs lines 31-47): name check, then
symbol check, then decimals check, each short-circuiting with its
generic error. -/
def InstantiateMsg.validate (m : InstantiateMsg) : StdResult Unit :=
  if !is_valid_name m.name then
    .error (.genericErr nameErrMsg)
  else if !is_valid_symbol m.symbol then
    .error (.genericErr symbolErrMsg)
  else if m.decimals > 18 then
    .error (.genericErr decimalsErrMsg)
  else
    .ok ()

/-- A byte is allowed in a symbol exactly when it is a hyphen, an ASCII
uppercase letter, or an ASCII lowercase letter. -/
theorem symbolByteDisallowed_eq_false_iff (b : Nat) :
    symbolByteDisallowed b = false ↔
      b = 45 ∨ (65 ≤ b ∧ b ≤ 90) ∨ (97 ≤ b ∧ b ≤ 122) := by
  simp only [symbolByteDisallowed, Bool.and_eq_false_iff, bne_eq_false_iff_eq,
    Bool.or_eq_false_iff, decide_eq_false_iff_not, Nat.not_lt]
  omega

/-- Characterization of the name check. -/
theorem is_valid_name_iff (n : List Nat) :
    is_valid_name n = true ↔ 3 ≤ n.length ∧ n.length ≤ 50 := by
  simp only [is_valid_name]
  split
  · rename_i h
    simp only [Bool.false_eq_true, false_iff]
    simp only [Bool.or_eq_true, decide_eq_true_eq] at h
    omega
  · rename_i h
    simp only [Bool.or_eq_true, decide_eq_true_eq, not_or, Nat.not_lt] at h
    exact iff_of_true rfl (by omega)

/-- Characterization of the symbol check. -/
theorem is_valid_symbol_iff (s : List Nat) :
    is_valid_symbol s = true ↔
      3 ≤ s.length ∧ s.length ≤ 12 ∧
        ∀ b ∈ s, b = 45 ∨ (65 ≤ b ∧ b ≤ 90) ∨ (97 ≤ b ∧ b ≤ 122) := by
  simp only [is_valid_symbol]
  split
  · rename_i h
    simp only [Bool.false_eq_true, false_iff]
    simp only [Bool.or_eq_true, decide_eq_true_eq] at h
    omega
  · rename_i h
    simp only [Bool.or_eq_true, decide_eq_true_eq, not_or, Nat.not_lt] at h
    simp only [Bool.not_eq_true', List.any_eq_false]
    constructor
    · intro hall
      exact ⟨h.1, h.2, fun b hb =>
        (symbolByteDisallowed_eq_false_iff b).mp (Bool.eq_false_iff.mpr (hall b hb))⟩
    · intro ⟨_, _, hall⟩ b hb
      exact Bool.eq_false_iff.mp ((symbolByteDisallowed_eq_false_iff b).mpr (hall b hb))

/-- If the name check fails, `validate` returns the name error. -/
theorem validate_of_name_invalid (m : InstantiateMsg)
    (h : is_valid_name m.name = false) :
    m.validate = .error (.genericErr nameErrMsg) := by
  simp [InstantiateMsg.validate, h]

/-- If the name check passes and the symbol check fails, `validate`
returns the symbol error. -/
theorem validate_of_symbol_invalid (m : InstantiateMsg)
    (h1 : is_valid_name m.name = true) (h2 : is_valid_symbol m.symbol = false) :
    m.validate = .error (.genericErr symbolErrMsg) := by
  simp [InstantiateMsg.validate, h1, h2]

/-- If the name and symbol checks pass and decimals exceeds 18,
`validate` returns the decimals error. -/
theorem validate_of_decimals_invalid (m : InstantiateMsg)
    (h1 : is_valid_name m.name = true) (h2 : is_valid_symbol m.symbol = true)
    (h3 : 18 < m.decimals) :
    m.validate = .error (.genericErr decimalsErrMsg) := by
  simp [InstantiateMsg.validate, h1, h2, h3]

/-- If all three checks pass, `validate` succeeds. -/
theorem validate_of_all_valid (m : InstantiateMsg)
    (h1 : is_valid_name m.name = true) (h2 : is_valid_symbol m.symbol = true)
    (h3 : m.decimals ≤ 18) :
    m.validate = .ok () := by
  simp [InstantiateMsg.validate, h1, h2, Nat.not_lt.mpr h3]

/-- UTF-8 bytes of the string "test_token" from the repository's tests. -/
def testName : List Nat := [116, 101, 115, 116, 95, 116, 111, 107, 101, 110]

/-- UTF-8 bytes of the string "minter0000" from the repository's tests. -/
def testMinter : List Nat := [109, 105, 110, 116, 101, 114, 48, 48, 48, 48]

/-- UTF-8 bytes of the string "TNT" from the repository's tests. -/
def testSymbol : List Nat := [84, 78, 84]

/-- C1: for every request whose name has byte length between 3 and 50
inclusive, whose symbol has byte length between 3 and 12 inclusive with
every byte an ASCII uppercase letter, ASCII lowercase letter, or hyphen
(byte 45), and whose decimals is at most 18, `validate` returns success,
regardless of the `initial_balances`, `mint`, and `marketing` fields. -/
theorem validate_ok_of_wellformed (m : InstantiateMsg)
    (hn1 : 3 ≤ m.name.length) (hn2 : m.name.length ≤ 50)
    (hs1 : 3 ≤ m.symbol.length) (hs2 : m.symbol.length ≤ 12)
    (hs3 : ∀ b ∈ m.symbol, b = 45 ∨ (65 ≤ b ∧ b ≤ 90) ∨ (97 ≤ b ∧ b ≤ 122))
    (hd : m.decimals ≤ 18) :
    m.validate = .ok () :=
  validate_of_all_valid m ((is_valid_name_iff m.name).mpr ⟨hn1, hn2⟩)
    ((is_valid_symbol_iff m.symbol).mpr ⟨hs1, hs2, hs3⟩) hd

/-- Witness for C1: the valid message of the repository's `validate`
test (name "test_token", symbol "TNT", 6 decimals, a minter with cap 1)
is accepted. -/
theorem validate_ok_of_wellformed_witness :
    (InstantiateMsg.mk testName testSymbol 6 []
      (some ⟨testMinter, some 1⟩) none).validate = .ok () :=
  validate_ok_of_wellformed _ (by decide) (by decide) (by decide) (by decide)
    (by decide) (by decide)

/-- C2: for every request whose name has byte length strictly less than
3 or strictly greater than 50, `validate` returns the InvalidName
rejection, regardless of the values of every other field. -/
theorem validate_invalidName_of_bad_name (m : InstantiateMsg)
    (h : m.name.length < 3 ∨ m.name.length > 50) :
    m.validate = .error (.genericErr nameErrMsg) := by
  apply validate_of_name_invalid
  rcases Bool.eq_false_or_eq_true (is_valid_name m.name) with ht | hf
  · have := (is_valid_name_iff m.name).mp ht
    omega
  · exact hf

/-- Witness for C2: the one-byte name "a" is rejected as InvalidName
even with a valid symbol, valid decimals, and a minter present. -/
theorem validate_invalidName_of_bad_name_witness :
    (InstantiateMsg.mk [97] testSymbol 6 []
      (some ⟨testMinter, some 1⟩) none).validate = .error (.genericErr nameErrMsg) :=
  validate_invalidName_of_bad_name _ (by decide)

/-- Counterexample to C3 as stated: the request with name "a" (1 byte,
invalid) and symbol of two bytes 33 ("!!": invalid length and invalid
bytes) has an invalid symbol, yet `validate` returns the InvalidName
rejection, not the InvalidSymbol rejection. -/
theorem validate_invalidSymbol_cex :
    (InstantiateMsg.mk [97] [33, 33] 6 [] none none).symbol.length < 3 ∧
    symbolByteDisallowed 33 = true ∧
    (InstantiateMsg.mk [97] [33, 33] 6 [] none none).validate
      = .error (.genericErr nameErrMsg) ∧
    nameErrMsg ≠ symbolErrMsg := by
  refine ⟨by decide, by decide, ?_, by decide⟩
  rfl

/-- C3 (amended): for all requests whose name passes the name check
(byte length in [3,50]) and whose symbol contains a disallowed byte or
has byte length outside [3,12], `validate` returns the InvalidSymbol
rejection. -/
theorem validate_invalidSymbol_of_bad_symbol (m : InstantiateMsg)
    (hn1 : 3 ≤ m.name.length) (hn2 : m.name.length ≤ 50)
    (hs : m.symbol.length < 3 ∨ m.symbol.length > 12 ∨
      ∃ b ∈ m.symbol, symbolByteDisallowed b = true) :
    m.validate = .error (.genericErr symbolErrMsg) := by
  apply validate_of_symbol_invalid m ((is_valid_name_iff m.name).mpr ⟨hn1, hn2⟩)
  rcases Bool.eq_false_or_eq_true (is_valid_symbol m.symbol) with ht | hf
  case inr => exact hf
  case inl =>
    obtain ⟨h1, h2, h3⟩ := (is_valid_symbol_iff m.symbol).mp ht
    rcases hs with hlt | hgt | ⟨b, hb, hbad⟩
    · omega
    · omega
    · have := (symbolByteDisallowed_eq_false_iff b).mpr (h3 b hb)
      rw [hbad] at this
      exact absurd this (by decide)

/-- Witness for C3 (amended): name "test_token" with the two-byte
symbol "TN" is rejected as InvalidSymbol. -/
theorem validate_invalidSymbol_of_bad_symbol_witness :
    (InstantiateMsg.mk testName [84, 78] 6 []
      (some ⟨testMinter, some 1⟩) none).validate = .error (.genericErr symbolErrMsg) :=
  validate_invalidSymbol_of_bad_symbol _ (by decide) (by decide) (by decide)

/-- Counterexample to C4 as stated: the request with name "a" (1 byte)
and decimals 20 has decimals strictly greater than 18, yet `validate`
returns the InvalidName rejection, not the InvalidDecimals rejection. -/
theorem validate_invalidDecimals_cex :
    18 < (InstantiateMsg.mk [97] testSymbol 20 [] none none).decimals ∧
    (InstantiateMsg.mk [97] testSymbol 20 [] none none).validate
      = .error (.genericErr nameErrMsg) ∧
    nameErrMsg ≠ decimalsErrMsg := by
  refine ⟨by decide, ?_, by decide⟩
  rfl

/-- C4 (amended): for all requests whose name and symbol pass their
checks and whose decimals is strictly greater than 18 (decimals is an
unsigned 8-bit integer, so up to 255), `validate` returns the
InvalidDecimals rejection. -/
theorem validate_invalidDecimals_of_bad_decimals (m : InstantiateMsg)
    (hn1 : 3 ≤ m.name.length) (hn2 : m.name.length ≤ 50)
    (hs1 : 3 ≤ m.symbol.length) (hs2 : m.symbol.length ≤ 12)
    (hs3 : ∀ b ∈ m.symbol, b = 45 ∨ (65 ≤ b ∧ b ≤ 90) ∨ (97 ≤ b ∧ b ≤ 122))
    (hd : 18 < m.decimals) (_hd255 : m.decimals ≤ 255) :
    m.validate = .error (.genericErr decimalsErrMsg) :=
  validate_of_decimals_invalid m ((is_valid_name_iff m.name).mpr ⟨hn1, hn2⟩)
    ((is_valid_symbol_iff m.symbol).mpr ⟨hs1, hs2, hs3⟩) hd

/-- Witness for C4 (amended): name "test_token", symbol "TNT", decimals
20 is rejected as InvalidDecimals (the repository's own test case). -/
theorem validate_invalidDecimals_of_bad_decimals_witness :
    (InstantiateMsg.mk testName testSymbol 20 []
      (some ⟨testMinter, some 1⟩) none).validate = .error (.genericErr decimalsErrMsg) :=
  validate_invalidDecimals_of_bad_decimals _ (by decide) (by decide) (by decide)
    (by decide) (by decide) (by decide) (by decide)

/-- C5: for every request that violates both the name rule (byte length
outside [3,50]) and the symbol rule (byte length outside [3,12] or a
disallowed byte), `validate` reports only the InvalidName rejection:
the name check is applied first and short-circuits. -/
theorem validate_name_check_first (m : InstantiateMsg)
    (hn : m.name.length < 3 ∨ m.name.length > 50)
    (hs : m.symbol.length < 3 ∨ m.symbol.length > 12 ∨
      ∃ b ∈ m.symbol, symbolByteDisallowed b = true) :
    m.validate = .error (.genericErr nameErrMsg) := by
  apply validate_of_name_invalid
  rcases Bool.eq_false_or_eq_true (is_valid_name m.name) with ht | hf
  · have := (is_valid_name_iff m.name).mp ht
    omega
  · exact hf

/-- Witness for C5: name "a" (too short) together with symbol "!!"
(too short and disallowed bytes) is rejected as InvalidName. -/
theorem validate_name_check_first_witness :
    (InstantiateMsg.mk [97] [33, 33] 20 [] none none).validate
      = .error (.genericErr nameErrMsg) :=
  validate_name_check_first _ (by decide) (by decide)

/-- C6: `get_cap` returns absent when `mint` is absent, and returns the
`mint` field's `cap` sub-field unchanged (which may itself be absent)
when `mint` is present; it is a total function of the request. -/
theorem get_cap_flattens (m : InstantiateMsg) (v : MinterResponse) :
    (m.mint = none → m.get_cap = none) ∧
    (m.mint = some v → m.get_cap = v.cap) := by
  constructor <;> intro h <;> simp [InstantiateMsg.get_cap, h]

/-- Witness for C6: a request without `mint` yields no cap; the
repository test's request with minter "minter0000" and cap 1 yields
cap 1. -/
theorem get_cap_flattens_witness :
    (InstantiateMsg.mk testName testSymbol 6 [] none none).get_cap = none ∧
    (InstantiateMsg.mk testName testSymbol 6 []
      (some ⟨testMinter, some 1⟩) none).get_cap = some 1 :=
  ⟨(get_cap_flattens _ ⟨[], none⟩).1 rfl,
   (get_cap_flattens _ ⟨testMinter, some 1⟩).2 rfl⟩

/-- C7: every result of `validate` is either success or one of the
three fixed generic errors, each carrying exactly its user-visible
message; no other error value is ever returned. -/
theorem validate_result_enumeration (m : InstantiateMsg) :
    m.validate = .ok () ∨
    m.validate = .error (.genericErr "Name is not in the expected format (3-50 UTF-8 bytes)") ∨
    m.validate
      = .error (.genericErr "Ticker symbol is not in expected format [a-zA-Z\\-]\x7b3,12\x7d") ∨
    m.validate = .error (.genericErr "Decimals must not exceed 18") := by
  show m.validate = .ok () ∨ m.validate = .error (.genericErr nameErrMsg) ∨
    m.validate = .error (.genericErr symbolErrMsg) ∨
    m.validate = .error (.genericErr decimalsErrMsg)
  unfold InstantiateMsg.validate
  split
  · right; left; rfl
  · split
    · right; right; left; rfl
    · split
      · right; right; right; rfl
      · left; rfl

/-- C8: the result of `validate` depends only on the `name`, `symbol`,
and `decimals` fields: two requests agreeing on those three fields get
identical results, whatever their `initial_balances`, `mint`, and
`marketing`. -/
theorem validate_depends_only_on_checked_fields (m₁ m₂ : InstantiateMsg)
    (hn : m₁.name = m₂.name) (hs : m₁.symbol = m₂.symbol)
    (hd : m₁.decimals = m₂.decimals) :
    m₁.validate = m₂.validate := by
  unfold InstantiateMsg.validate
  rw [hn, hs, hd]

/-- Witness for C8: two requests sharing name/symbol/decimals but
differing in balances, mint, and marketing validate identically (and
their mint fields really differ). -/
theorem validate_depends_only_on_checked_fields_witness :
    (InstantiateMsg.mk testName testSymbol 6 [] none none).validate
      = (InstantiateMsg.mk testName testSymbol 6 [⟨testMinter, 7⟩]
          (some ⟨testMinter, some 1⟩)
          (some ⟨some [112], none, none, none⟩)).validate ∧
    (InstantiateMsg.mk testName testSymbol 6 [] none none).mint
      ≠ (InstantiateMsg.mk testName testSymbol 6 [⟨testMinter, 7⟩]
          (some ⟨testMinter, some 1⟩)
          (some ⟨some [112], none, none, none⟩)).mint :=
  ⟨validate_depends_only_on_checked_fields _ _ rfl rfl rfl, by decide⟩

/-- C9: a symbol consisting entirely of hyphen bytes is accepted: with
a name of 3 to 50 bytes, decimals at most 18, and a symbol of 3 to 12
bytes all equal to 45, `validate` succeeds whatever the other fields. -/
theorem validate_ok_all_hyphens (name : List Nat) (d k : Nat)
    (balances : List Cw20Coin) (mint : Option MinterResponse)
    (marketing : Option InstantiateMarketingInfo)
    (hn1 : 3 ≤ name.length) (hn2 : name.length ≤ 50)
    (hd : d ≤ 18) (hk1 : 3 ≤ k) (hk2 : k ≤ 12) :
    (InstantiateMsg.mk name (List.replicate k 45) d balances mint
      marketing).validate = .ok () := by
  apply validate_of_all_valid
  · exact (is_valid_name_iff name).mpr ⟨hn1, hn2⟩
  · refine (is_valid_symbol_iff _).mpr ⟨?_, ?_, ?_⟩
    · simpa using hk1
    · simpa using hk2
    · intro b hb
      left
      exact (List.eq_of_mem_replicate hb)
  · exact hd

/-- Witness for C9: name "test_token" with symbol "---" and 6 decimals
is accepted. -/
theorem validate_ok_all_hyphens_witness :
    (InstantiateMsg.mk testName (List.replicate 3 45) 6 [] none none).validate
      = .ok () :=
  validate_ok_all_hyphens testName 6 3 [] none none (by decide) (by decide)
    (by decide) (by decide) (by decide)

/-- C10: `get_cap` is independent of `validate`: its result depends
only on the `mint` field (two requests with equal `mint` fields yield
equal caps), and whenever `mint` is present the configured cap is
returned unchanged, even a cap of zero and even for a request that
`validate` rejects. -/
theorem get_cap_depends_only_on_mint (m₁ m₂ : InstantiateMsg)
    (h : m₁.mint = m₂.mint) :
    m₁.get_cap = m₂.get_cap ∧
    ∀ v : MinterResponse, m₁.mint = some v → m₁.get_cap = v.cap := by
  constructor
  · unfold InstantiateMsg.get_cap
    rw [h]
  · intro v hv
    simp [InstantiateMsg.get_cap, hv]

/-- Witness for C10: a request whose name "a" fails validation but
whose minter has cap 0 still reports cap 0 from `get_cap`, equal to the
cap of a fully valid request with the same `mint` field. -/
theorem get_cap_depends_only_on_mint_witness :
    (InstantiateMsg.mk [97] testSymbol 6 []
      (some ⟨testMinter, some 0⟩) none).validate = .error (.genericErr nameErrMsg) ∧
    (InstantiateMsg.mk [97] testSymbol 6 []
      (some ⟨testMinter, some 0⟩) none).get_cap = some 0 ∧
    (InstantiateMsg.mk [97] testSymbol 6 []
        (some ⟨testMinter, some 0⟩) none).get_cap
      = (InstantiateMsg.mk testName testSymbol 6 []
          (some ⟨testMinter, some 0⟩) none).get_cap :=
  ⟨rfl,
   (get_cap_depends_only_on_mint
      (InstantiateMsg.mk [97] testSymbol 6 [] (some ⟨testMinter, some 0⟩) none)
      (InstantiateMsg.mk testName testSymbol 6 [] (some ⟨testMinter, some 0⟩) none)
      rfl).2 ⟨testMinter, some 0⟩ rfl,
   (get_cap_depends_only_on_mint
      (InstantiateMsg.mk [97] testSymbol 6 [] (some ⟨testMinter, some 0⟩) none)
      (InstantiateMsg.mk testName testSymbol 6 [] (some ⟨testMinter, some 0⟩) none)
      rfl).1⟩

end Cw20Reflection
